import Mathlib

/-!
Shallow embedding of the qatesting_prs synchronization engine.

Sources embedded:
- src/main.py: parse_issue_references, check_comment_exists,
  notify_change_status, main.
- src/graphql.py: the remote read/write wrappers (get_issue_status,
  get_project_item_id_for_issue, update_issue_status_to_qa_testing,
  get_issue_comments, add_issue_comment) and the cursor pagination loop of
  get_recent_merged_prs_in_dev.
- scr/graphql.py: the recursive pagination of get_repo_issues.

Remote state (issue project items, issue comments) is threaded explicitly
through a RunState; remote calls append to an observable call trace.
Transport failures of the comment-post call and of the comment-history
read are decided by explicit oracles, one success bit per call, so
failing calls can be expressed (graphql.py catches RequestException and
returns None or an empty list).

A central fact of this program: the call at main.py:126-134 passes the
keyword argument issue_id to update_issue_status_to_qa_testing, whose
definition (graphql.py:299-301) has only the six parameters owner,
project_title, project_id, status_field_id, item_id, status_option_id.
Python raises TypeError at argument binding, before the function body
runs, so no status mutation request is ever issued; main.py has no
try/except, so the exception aborts the whole run and the interpreter
exits with a non-zero status.  The embedding models this with an explicit
crashed step result.

Strings are restricted to ASCII, which covers every literal the programs
and claims use.
-/

namespace QA

/-- Configuration read from the config module.
Modelled from the spec: the config module itself is not among the source
files (only its uses are); section 6 of the design lists repository owner,
repository name, project title, status field name and the dry-run flag. -/
structure Config where
  repository_owner : String
  repository_name : String
  project_title : String
  status_field_name : String
  dry_run : Bool

/-- Python character class [\w-] of the reference pattern, restricted to
ASCII: letters, digits, underscore, hyphen (main.py:16). -/
def isWordOrHyphen (c : Char) : Bool :=
  c.isAlphanum || c = '_' || c = '-'

/-- Greedy run of characters satisfying p: pair of the maximal matching
run and the rest of the input. Models a greedy character-class repetition
of the regex engine. -/
def takeRun (p : Char → Bool) : List Char → List Char × List Char
  | [] => ([], [])
  | c :: cs =>
    if p c then
      let r := takeRun p cs
      (c :: r.1, r.2)
    else ([], c :: cs)

/-- Raw groups of one regex match: optional org group, optional repo
group, mandatory digit group (main.py:16). -/
structure RawMatch where
  org : Option (List Char)
  repo : Option (List Char)
  digits : List Char
deriving DecidableEq

/-- One attempt of the Python pattern
(?:(?:(?P[org][\w-]+)/)?(?P[repo][\w-]+))?#(?P[number]\d+)
anchored at the head of cs, with Python backtracking semantics.
Since the character class excludes both the slash and the hash sign, a
greedy [\w-]+ run can only ever be followed by them at its maximal
extent, so the three regex alternatives (org/repo#digits, repo#digits,
bare #digits, in that priority order) reduce to this case analysis on the
maximal runs.  Returns the groups and the rest of the input after the
match. -/
def matchAt (cs : List Char) : Option (RawMatch × List Char) :=
  let r1 := takeRun isWordOrHyphen cs
  if r1.1 = [] then
    match cs with
    | '#' :: cs3 =>
      let d := takeRun Char.isDigit cs3
      if d.1 = [] then none else some (⟨none, none, d.1⟩, d.2)
    | _ => none
  else
    match r1.2 with
    | '/' :: cs2 =>
      let r2 := takeRun isWordOrHyphen cs2
      if r2.1 = [] then none
      else
        match r2.2 with
        | '#' :: cs3 =>
          let d := takeRun Char.isDigit cs3
          if d.1 = [] then none else some (⟨some r1.1, some r2.1, d.1⟩, d.2)
        | _ => none
    | '#' :: cs3 =>
      let d := takeRun Char.isDigit cs3
      if d.1 = [] then none else some (⟨none, some r1.1, d.1⟩, d.2)
    | _ => none

/-- re.finditer: scan left to right, at each position attempt a match;
on success emit it and continue after the matched text, otherwise advance
one character.  The fuel argument bounds the recursion; matches consume
at least two characters, so fuel equal to the input length is always
sufficient (finditerAux_fuel below). -/
def finditerAux : Nat → List Char → List RawMatch
  | 0, _ => []
  | _ + 1, [] => []
  | fuel + 1, c :: cs =>
    match matchAt (c :: cs) with
    | some (m, rest) => m :: finditerAux fuel rest
    | none => finditerAux fuel cs

/-- All matches of the reference pattern in cs, in order (main.py:17). -/
def finditer (cs : List Char) : List RawMatch :=
  finditerAux cs.length cs

/-- Python int() on a digit group. -/
def digitsToNat (ds : List Char) : Nat :=
  ds.foldl (fun acc c => acc * 10 + (c.toNat - ('0').toNat)) 0

/-- A resolved issue reference: owner, repository, number (main.py:29). -/
structure IssueRef where
  org : String
  repo : String
  number : Nat
deriving DecidableEq

/-- Defaulting of one match (main.py:20-33): org falls back to
config.repository_owner (the org group, when present, is a nonempty run,
so the Python "or" is exactly this Option fallback) and a missing repo
group falls back to config.repository_name. -/
def resolveMatch (cfg : Config) (m : RawMatch) : IssueRef :=
  { org := match m.org with
      | some o => String.mk o
      | none => cfg.repository_owner
    repo := match m.repo with
      | some r => String.mk r
      | none => cfg.repository_name
    number := digitsToNat m.digits }

/-- parse_issue_references (main.py:8-35): extract all matches of the
reference pattern from the text (None treated as the empty string,
mirroring the Python "text or" guard) and resolve each against the
configured owner and repository. -/
def parse_issue_references (cfg : Config) (text : Option String) : List IssueRef :=
  (finditer (text.getD "").toList).map (resolveMatch cfg)

/-- A merged pull request as fetched by get_recent_merged_prs_in_dev
(graphql.py:24-37); bodyText may be absent (main.py:93 reads it with a
None fallback). -/
structure PR where
  number : Nat
  url : String
  title : String
  bodyText : Option String
deriving DecidableEq

/-- One projectItems node of an issue (graphql.py:224-233, 264-275):
the item id, the id of the project the item belongs to, and the value of
fieldValueByName for the configured status field (none when unset or when
the issue is not on any board with that field). -/
structure ProjectItem where
  item_id : String
  project_id : String
  field_value : Option String
deriving DecidableEq

/-- The mutable remote state the engine reads and writes: for each issue
id, its project items and the bodies of its comments. -/
structure Remote where
  projectItems : String → List ProjectItem
  comments : String → List String

/-- One observable remote call of the engine.  lookupIssue is the issue
identifier lookup, statusMut the updateProjectV2ItemFieldValue mutation
(tagged with the itemId variable it would carry), addComment the
addComment mutation; the ok flag on the writes records whether the call
succeeded.  The engine itself never emits a statusMut call: the call
site at main.py:126 raises TypeError before any request is issued. -/
inductive Call where
  | lookupIssue (org repo : String) (number : Nat)
  | statusMut (item_id : Option String) (ok : Bool)
  | addComment (issue_id : String) (body : String) (ok : Bool)
deriving DecidableEq

/-- Success oracles for the remote calls whose failure graphql.py
swallows, indexed by how many calls of that kind the run has already
issued: mutOk for the status mutation (update_issue_status_to_qa_testing
returns None on failure), comOk for addComment, readOk for the comment
history read of get_issue_comments (a RequestException is caught and an
empty list returned, graphql.py:378-380). -/
structure Oracle where
  mutOk : Nat → Bool
  comOk : Nat → Bool
  readOk : Nat → Bool

/-- The oracle under which every remote call succeeds. -/
def allOk : Oracle := ⟨fun _ => true, fun _ => true, fun _ => true⟩

/-- Per-run state: the remote, the per-kind call counters consumed by the
oracles, and the ordered trace of write and lookup calls issued so
far. -/
structure RunState where
  remote : Remote
  mutCount : Nat
  comCount : Nat
  readCount : Nat
  calls : List Call

/-- The static inputs of one run: configuration, the merged PRs returned
by get_recent_merged_prs_in_dev, the results of the three project
configuration lookups (get_project_id_by_title, get_status_field_id,
get_qatesting_status_option_id, main.py:61-83), and the issue identifier
lookup.

Modelled from the spec: graphql.get_issue_id_by_number is called at
main.py:107 but its definition is not among the source files; section 4.2
of the design describes it as resolving an (owner, repo, number)
reference to a stable issue identifier, with a miss reported as None. -/
structure Env where
  cfg : Config
  merged_prs : List PR
  project_id : Option String
  status_field_id : Option String
  status_option_id : Option String
  issue_id_by_number : String → String → Nat → Option String

/-- get_issue_status (graphql.py:219-255): the first project item of the
issue carrying a value for the status field determines the status; None
when no item carries one.  graphql.py catches a RequestException here and
returns None as well; a None status lands in the same branch as any
status different from the target, so that failure mode is subsumed by a
remote whose items carry no value. -/
def get_issue_status (r : Remote) (issue_id : String) : Option String :=
  (r.projectItems issue_id).findSome? (fun item => item.field_value)

/-- get_project_item_id_for_issue (graphql.py:258-296): the id of the
issue item inside the given project, None when the issue is not linked
to it.  Defined for reference: notify_change_status never calls it. -/
def get_project_item_id_for_issue (r : Remote) (project_id issue_id : String) :
    Option String :=
  ((r.projectItems issue_id).find? (fun item => item.project_id == project_id)).map
    ProjectItem.item_id

/-- Python substring prefix test on character lists. -/
def startsWithChars : List Char → List Char → Bool
  | [], _ => true
  | _ :: _, [] => false
  | a :: as, b :: bs => a = b && startsWithChars as bs

/-- Python "needle in hay" substring containment on character lists. -/
def containsSub (needle : List Char) : List Char → Bool
  | [] => startsWithChars needle []
  | c :: cs => startsWithChars needle (c :: cs) || containsSub needle cs

/-- Whether some comment body of the issue stored on the remote contains
the given text as a substring: the pure content of the
check_comment_exists scan, before read failures are accounted for. -/
def commentExistsIn (r : Remote) (issue_id comment_text : String) : Bool :=
  (r.comments issue_id).any
    (fun body => containsSub comment_text.toList body.toList)

/-- get_issue_comments (graphql.py:332-380): the full comment list of the
issue when the request round trip succeeds (the pagination loop it runs
is modelled separately below, against a well-behaved server); on a
RequestException the except path returns the empty list.  One readOk
oracle bit is consumed per call. -/
def get_issue_comments (fx : Oracle) (st : RunState) (issue_id : String) :
    List String × RunState :=
  let ok := fx.readOk st.readCount
  let st1 : RunState := { st with readCount := st.readCount + 1 }
  if ok then (st.remote.comments issue_id, st1) else ([], st1)

/-- check_comment_exists (main.py:38-44): fetch the issue comments and
test whether some body contains the given text as a substring.  When the
read fails the scanned list is empty and the check reports false. -/
def check_comment_exists (fx : Oracle) (st : RunState)
    (issue_id comment_text : String) : Bool × RunState :=
  let res := get_issue_comments fx st issue_id
  (res.1.any (fun body => containsSub comment_text.toList body.toList), res.2)

/-- The deterministic notification marker for a PR (main.py:112-115),
a function of the PR number and URL only. -/
def comment_text_for (pr_number : Nat) (pr_url : String) : String :=
  "Testing will be available in 15 minutes (triggered by [PR #" ++
    toString pr_number ++ "](" ++ pr_url ++ "))"

/-- Remote effect of a successful updateProjectV2ItemFieldValue for the
QA Testing option.
Modelled from the spec: the remote semantics of the mutation is not in
the sources; section 4.4 describes the transition as setting the status
of the addressed board item to the target option (whose name is QA
Testing, since get_qatesting_status_option_id matched that name). -/
def setItemStatus (r : Remote) (project_id : String) (item_id : Option String) :
    Remote :=
  { r with projectItems := fun j =>
      (r.projectItems j).map (fun it =>
        if some it.item_id = item_id ∧ it.project_id = project_id
        then { it with field_value := some "QA Testing" }
        else it) }

/-- Remote effect of a successful addComment: the body is appended to the
issue comment list. -/
def appendComment (r : Remote) (issue_id body : String) : Remote :=
  { r with comments := fun j =>
      if j = issue_id then r.comments j ++ [body] else r.comments j }

/-- update_issue_status_to_qa_testing (graphql.py:299-329), with exactly
the six parameters of the source: owner, project_title, project_id,
status_field_id, item_id, status_option_id.  It would issue one mutation
request and return the truthiness of the response data (None on failure).
Defined for reference: the call at main.py:126-134 passes an extra
issue_id keyword argument, which raises TypeError at binding, so this
function body is never reached by the program. -/
def update_issue_status_to_qa_testing (fx : Oracle) (st : RunState)
    (owner project_title project_id status_field_id : String)
    (item_id : Option String) (status_option_id : String) : Bool × RunState :=
  let ok := fx.mutOk st.mutCount
  let st1 : RunState :=
    { st with
        mutCount := st.mutCount + 1
        calls := st.calls ++ [Call.statusMut item_id ok] }
  if ok then (true, { st1 with remote := setItemStatus st1.remote project_id item_id })
  else (false, st1)

/-- add_issue_comment (graphql.py:383-403): one addComment call; on
success the comment body is appended to the issue comments. -/
def add_issue_comment (fx : Oracle) (st : RunState) (issue_id body : String) :
    Bool × RunState :=
  let ok := fx.comOk st.comCount
  let st1 : RunState :=
    { st with
        comCount := st.comCount + 1
        calls := st.calls ++ [Call.addComment issue_id body ok] }
  if ok then (true, { st1 with remote := appendComment st1.remote issue_id body })
  else (false, st1)

/-- Result of one engine step: ok to continue with the new state, or
crashed by the uncaught TypeError of main.py:126 with the state at the
raise point (the exception propagates out of both loops and out of
main). -/
inductive StepResult where
  | ok (st : RunState)
  | crashed (st : RunState)

/-- The run state carried by a step result. -/
def StepResult.state : StepResult → RunState
  | StepResult.ok st => st
  | StepResult.crashed st => st

/-- Body of the inner reference loop of notify_change_status
(main.py:102-143): look the reference up; on a miss warn and continue;
skip when the marker comment is found; otherwise read the status.  When
the status differs from QA Testing the source evaluates the update call
arguments and raises TypeError binding the issue_id keyword
(main.py:126-134 against the six-parameter graphql.py:299-301), before
any request is issued: the step crashes, aborting the run with no
mutation call and no comment.  When the status already is QA Testing the
comment is posted directly. -/
def processRef (env : Env) (fx : Oracle)
    (project_id status_field_id status_option_id : String)
    (pr : PR) (st : RunState) (ref : IssueRef) : StepResult :=
  let st := { st with
      calls := st.calls ++ [Call.lookupIssue ref.org ref.repo ref.number] }
  match env.issue_id_by_number ref.org ref.repo ref.number with
  | none => StepResult.ok st
  | some issue_id =>
    let comment_text := comment_text_for pr.number pr.url
    let chk := check_comment_exists fx st issue_id comment_text
    if chk.1 then StepResult.ok chk.2
    else
      let current_status := get_issue_status chk.2.remote issue_id
      if current_status ≠ some "QA Testing" then
        StepResult.crashed chk.2
      else
        StepResult.ok (add_issue_comment fx chk.2 issue_id comment_text).2

/-- Sequential processing of a work list with the uncaught-exception
short circuit: a crashed step aborts the rest of the list (and, lifted to
the outer loop, the rest of the run). -/
def runSteps {α : Type} (f : RunState → α → StepResult) :
    RunState → List α → StepResult
  | st, [] => StepResult.ok st
  | st, x :: xs =>
    match f st x with
    | StepResult.ok st2 => runSteps f st2 xs
    | StepResult.crashed st2 => StepResult.crashed st2

/-- Body of the outer PR loop of notify_change_status (main.py:89-143):
parse the PR body (None read as empty, main.py:93) and process each
mentioned reference in order; an uncaught TypeError in a step propagates
out. -/
def processPR (env : Env) (fx : Oracle)
    (project_id status_field_id status_option_id : String)
    (st : RunState) (pr : PR) : StepResult :=
  let pr_body := pr.bodyText.getD ""
  let mentioned_issues := parse_issue_references env.cfg (some pr_body)
  runSteps (processRef env fx project_id status_field_id status_option_id pr)
    st mentioned_issues

/-- How notify_change_status ended: an early return, a completed pass
over the merged PRs, or the uncaught TypeError of main.py:126. -/
inductive RunOutcome where
  | noMergedPRs
  | projectNotFound
  | statusFieldNotFound
  | statusOptionNotFound
  | completed
  | crashedTypeError
deriving DecidableEq

/-- notify_change_status (main.py:47-143): return early when there are no
merged PRs or when the project, status field or status option lookup
fails (each failure only logs an error and returns); otherwise run the
two nested loops over merged PRs and their parsed references, which
either complete or die on the uncaught TypeError. -/
def notify_change_status (env : Env) (fx : Oracle) (r : Remote) :
    RunOutcome × RunState :=
  let st0 : RunState := ⟨r, 0, 0, 0, []⟩
  if env.merged_prs.isEmpty then (RunOutcome.noMergedPRs, st0)
  else
    match env.project_id with
    | none => (RunOutcome.projectNotFound, st0)
    | some project_id =>
      match env.status_field_id with
      | none => (RunOutcome.statusFieldNotFound, st0)
      | some status_field_id =>
        match env.status_option_id with
        | none => (RunOutcome.statusOptionNotFound, st0)
        | some status_option_id =>
          match runSteps
            (processPR env fx project_id status_field_id status_option_id)
            st0 env.merged_prs with
          | StepResult.ok st => (RunOutcome.completed, st)
          | StepResult.crashed st => (RunOutcome.crashedTypeError, st)

/-- main (main.py:146-151): when the dry-run flag is set it is only
logged; notify_change_status then runs unconditionally, so the flag has
no effect on the calls issued. -/
def main_run (env : Env) (fx : Oracle) (r : Remote) : RunOutcome × RunState :=
  let _dry_logged := env.cfg.dry_run
  notify_change_status env fx r

/-- The process exit status.  When the run dies on the uncaught TypeError
the interpreter prints a traceback and exits 1; on every other path
notify_change_status handles its errors by logging and returning, main
returns None, and sys.exit is never called, so the interpreter exits
0. -/
def process_exit_code (env : Env) (fx : Oracle) (r : Remote) : Nat :=
  match (main_run env fx r).1 with
  | RunOutcome.crashedTypeError => 1
  | _ => 0

/-- One page of the pullRequests query (graphql.py:50-80): whether the
response carried a GraphQL errors field, the PR nodes, and the pageInfo
cursor and hasNextPage flag. -/
structure PRPage where
  has_errors : Bool
  nodes : List PR
  endCursor : Option String
  hasNextPage : Bool
deriving DecidableEq

/-- One page of the repository issues query (scr/graphql.py:9-64); items
kept as plain node identifiers. -/
structure IssuesPage where
  nodes : List String
  endCursor : Option String
  hasNextPage : Bool
deriving DecidableEq

/-- Observable result of a pagination loop run for a bounded number of
iterations: done with the collected items and the number of page requests
issued, or still running at the given cursor after that many requests. -/
inductive PageLoop (α : Type) where
  | done (items : α) (requests : Nat)
  | running (items : α) (cursor : Option String) (requests : Nat)
deriving DecidableEq

/-- The pagination loop of get_recent_merged_prs_in_dev (graphql.py:50-80)
run against a server, one fuel unit per iteration of the Python while
loop (the source loop itself is unbounded).  A response with a GraphQL
errors field breaks the loop with the PRs collected so far; otherwise the
nodes are appended and the loop continues exactly when hasNextPage is
true, taking the reported endCursor.  The caller passes
since_timestamp None (main.py:50-53), so no mergedAt filtering occurs. -/
def get_recent_merged_prs_in_dev (server : Option String → PRPage) :
    Nat → Option String → List PR → Nat → PageLoop (List PR)
  | 0, cursor, acc, reqs => PageLoop.running acc cursor reqs
  | fuel + 1, cursor, acc, reqs =>
    let page := server cursor
    if page.has_errors then PageLoop.done acc (reqs + 1)
    else
      let acc2 := acc ++ page.nodes
      if page.hasNextPage then
        get_recent_merged_prs_in_dev server fuel page.endCursor acc2 (reqs + 1)
      else PageLoop.done acc2 (reqs + 1)

/-- The recursive pagination of get_repo_issues (scr/graphql.py:9-64),
one fuel unit per recursive call.  No error break at all: the function
prints errors and keeps going, recursing exactly while hasNextPage is
true with the reported endCursor. -/
def get_repo_issues (server : Option String → IssuesPage) :
    Nat → Option String → List String → Nat → PageLoop (List String)
  | 0, after, issues, reqs => PageLoop.running issues after reqs
  | fuel + 1, after, issues, reqs =>
    let page := server after
    let issues2 := issues ++ page.nodes
    if page.hasNextPage then
      get_repo_issues server fuel page.endCursor issues2 (reqs + 1)
    else PageLoop.done issues2 (reqs + 1)

/-- A misbehaving server that always reports another page with the same
cursor and no items. -/
def constPRServer : Option String → PRPage :=
  fun _ => ⟨false, [], some "c0", true⟩

/-- The same misbehaving server for the issues query. -/
def constIssueServer : Option String → IssuesPage :=
  fun _ => ⟨[], some "c0", true⟩

/-- Status mutation calls in a trace (attempted, successful or not). -/
def isMutCall : Call → Bool
  | Call.statusMut _ _ => true
  | _ => false

/-- Comment-post calls in a trace (attempted, successful or not). -/
def isComCall : Call → Bool
  | Call.addComment _ _ _ => true
  | _ => false

/-- Issue identifier lookup calls in a trace. -/
def isLookupCall : Call → Bool
  | Call.lookupIssue _ _ _ => true
  | _ => false

/-- Number of status mutation calls in a trace. -/
def countMut (calls : List Call) : Nat := (calls.filter isMutCall).length

/-- Number of comment-post calls in a trace. -/
def countCom (calls : List Call) : Nat := (calls.filter isComCall).length

/-- Number of issue identifier lookup calls in a trace. -/
def countLookups (calls : List Call) : Nat := (calls.filter isLookupCall).length

/-- Example configuration: owner org, repository myrepo. -/
def cfgEx : Config := ⟨"org", "myrepo", "QA Board", "Status", false⟩

/-- Example configuration with the dry-run flag enabled. -/
def cfgDry : Config := ⟨"org", "myrepo", "QA Board", "Status", true⟩

/-- Example merged PR number 12 whose body mentions issue 5. -/
def pr12x : PR := ⟨12, "u12", "t12", some "#5"⟩

/-- Example merged PR number 99 whose body mentions issue 5. -/
def pr99x : PR := ⟨99, "u99", "t99", some "#5"⟩

/-- Example merged PR number 100 whose body mentions issue 5. -/
def pr100x : PR := ⟨100, "u100", "t100", some "#5"⟩

/-- Example PR whose body repeats one reference in all three forms. -/
def pr6x : PR := ⟨7, "u7", "t7", some "#12 and myrepo#12 and org/myrepo#12"⟩

/-- A PR whose body contains the prose fragment bug#12. -/
def prBug : PR := ⟨3, "u3", "t3", some "bug#12"⟩

/-- Identifier lookup resolving org/myrepo#5 to issue I1. -/
def lookup5 : String → String → Nat → Option String :=
  fun o r n => if o = "org" ∧ r = "myrepo" ∧ n = 5 then some "I1" else none

/-- Identifier lookup resolving org/myrepo#12 to issue I12. -/
def lookup12 : String → String → Nat → Option String :=
  fun o r n => if o = "org" ∧ r = "myrepo" ∧ n = 12 then some "I12" else none

/-- Remote with issue I1 on board P1 in status Todo and no comments. -/
def remTodo : Remote :=
  ⟨fun j => if j = "I1" then [⟨"item1", "P1", some "Todo"⟩] else [], fun _ => []⟩

/-- Remote with issue I1 on board P1 already in status QA Testing and no
comments. -/
def remQA : Remote :=
  ⟨fun j => if j = "I1" then [⟨"item1", "P1", some "QA Testing"⟩] else [],
   fun _ => []⟩

/-- Remote where issue I1 is on board P1 in status Todo and already
carries the notification comment of PR number 99. -/
def remMarked : Remote :=
  ⟨fun j => if j = "I1" then [⟨"item1", "P1", some "Todo"⟩] else [],
   fun j => if j = "I1" then [comment_text_for 99 "u99"] else []⟩

/-- Remote where issue I1 is linked to no project board at all. -/
def remUnlinked : Remote := ⟨fun _ => [], fun _ => []⟩

/-- Remote with issue I12 on board P1 already in status QA Testing and no
comments. -/
def rem6 : Remote :=
  ⟨fun j => if j = "I12" then [⟨"item12", "P1", some "QA Testing"⟩] else [],
   fun _ => []⟩

/-- Example environment: one merged PR (number 12), all configuration
lookups succeed, reference org/myrepo#5 resolves to issue I1. -/
def envMain : Env := ⟨cfgEx, [pr12x], some "P1", some "F1", some "O1", lookup5⟩

/-- The same environment with the dry-run flag enabled. -/
def envDry : Env := ⟨cfgDry, [pr12x], some "P1", some "F1", some "O1", lookup5⟩

/-- Environment whose one PR repeats the same reference three times. -/
def env6 : Env := ⟨cfgEx, [pr6x], some "P1", some "F1", some "O1", lookup12⟩

/-- Environment whose project lookup fails. -/
def envNoProject : Env := ⟨cfgEx, [pr12x], none, some "F1", some "O1", lookup5⟩

/-- Environment where the project, status field and status option
lookups all fail and no reference resolves. -/
def envAllNone : Env := ⟨cfgEx, [pr12x], none, none, none, fun _ _ _ => none⟩

theorem takeRun_append (p : Char → Bool) : ∀ cs : List Char,
    (takeRun p cs).1 ++ (takeRun p cs).2 = cs
  | [] => rfl
  | c :: cs => by
    by_cases h : p c
    · simp [takeRun, h, takeRun_append p cs]
    · simp [takeRun, h]

theorem takeRun_rest_le (p : Char → Bool) (cs : List Char) :
    (takeRun p cs).2.length ≤ cs.length := by
  conv_rhs => rw [← takeRun_append p cs]
  rw [List.length_append]
  omega

theorem takeRun_rest_lt (p : Char → Bool) (cs : List Char)
    (h : (takeRun p cs).1 ≠ []) : (takeRun p cs).2.length < cs.length := by
  have happ := takeRun_append p cs
  have h1 : 1 ≤ (takeRun p cs).1.length := by
    cases hh : (takeRun p cs).1
    · exact absurd hh h
    · simp
  have h2 : (takeRun p cs).1.length + (takeRun p cs).2.length = cs.length := by
    rw [← List.length_append, happ]
  omega

theorem matchAt_rest_lt : ∀ (cs : List Char) (m : RawMatch) (rest : List Char),
    matchAt cs = some (m, rest) → rest.length < cs.length := by
  intro cs m rest h
  by_cases h1 : (takeRun isWordOrHyphen cs).1 = []
  · rcases hcs : cs with _ | ⟨c, cs3⟩
    · subst hcs
      simp [matchAt, takeRun] at h
    · subst hcs
      by_cases hc : c = '#'
      · subst hc
        by_cases hd : (takeRun Char.isDigit cs3).1 = []
        · simp [matchAt, h1, hd] at h
        · have hev : matchAt ('#' :: cs3)
              = some (⟨none, none, (takeRun Char.isDigit cs3).1⟩,
                  (takeRun Char.isDigit cs3).2) := by
            simp [matchAt, h1, hd]
          rw [hev] at h
          simp only [Option.some.injEq, Prod.mk.injEq] at h
          obtain ⟨-, hrest⟩ := h
          subst hrest
          have := takeRun_rest_lt Char.isDigit cs3 hd
          simp only [List.length_cons]
          omega
      · simp [matchAt, h1, hc] at h
  · have hA : (takeRun isWordOrHyphen cs).2.length < cs.length :=
      takeRun_rest_lt isWordOrHyphen cs h1
    rcases hr2 : (takeRun isWordOrHyphen cs).2 with _ | ⟨c2, cs2⟩
    · simp [matchAt, h1, hr2] at h
    · rw [hr2] at hA
      simp only [List.length_cons] at hA
      by_cases hslash : c2 = '/'
      · subst hslash
        by_cases hr21 : (takeRun isWordOrHyphen cs2).1 = []
        · simp [matchAt, h1, hr2, hr21] at h
        · have hB : (takeRun isWordOrHyphen cs2).2.length ≤ cs2.length :=
            takeRun_rest_le isWordOrHyphen cs2
          rcases hr22 : (takeRun isWordOrHyphen cs2).2 with _ | ⟨c3, cs3⟩
          · simp [matchAt, h1, hr2, hr21, hr22] at h
          · rw [hr22] at hB
            simp only [List.length_cons] at hB
            by_cases hc3 : c3 = '#'
            · subst hc3
              by_cases hd : (takeRun Char.isDigit cs3).1 = []
              · simp [matchAt, h1, hr2, hr21, hr22, hd] at h
              · have hev : matchAt cs
                    = some (⟨some (takeRun isWordOrHyphen cs).1,
                        some (takeRun isWordOrHyphen cs2).1,
                        (takeRun Char.isDigit cs3).1⟩,
                        (takeRun Char.isDigit cs3).2) := by
                  simp [matchAt, h1, hr2, hr21, hr22, hd]
                rw [hev] at h
                simp only [Option.some.injEq, Prod.mk.injEq] at h
                obtain ⟨-, hrest⟩ := h
                subst hrest
                have := takeRun_rest_lt Char.isDigit cs3 hd
                omega
            · simp [matchAt, h1, hr2, hr21, hr22, hc3] at h
      · by_cases hc2 : c2 = '#'
        · subst hc2
          by_cases hd : (takeRun Char.isDigit cs2).1 = []
          · simp [matchAt, h1, hr2, hd] at h
          · have hev : matchAt cs
                = some (⟨none, some (takeRun isWordOrHyphen cs).1,
                    (takeRun Char.isDigit cs2).1⟩,
                    (takeRun Char.isDigit cs2).2) := by
              simp [matchAt, h1, hr2, hd]
            rw [hev] at h
            simp only [Option.some.injEq, Prod.mk.injEq] at h
            obtain ⟨-, hrest⟩ := h
            subst hrest
            have := takeRun_rest_lt Char.isDigit cs2 hd
            omega
        · simp [matchAt, h1, hr2, hslash, hc2] at h

theorem finditerAux_fuel : ∀ (f1 f2 : Nat) (cs : List Char),
    cs.length ≤ f1 → cs.length ≤ f2 →
    finditerAux f1 cs = finditerAux f2 cs := by
  intro f1
  induction f1 with
  | zero =>
    intro f2 cs h1 _
    have hnil : cs = [] := List.eq_nil_of_length_eq_zero (Nat.le_zero.mp h1)
    subst hnil
    cases f2 <;> rfl
  | succ k ih =>
    intro f2 cs h1 h2
    cases cs with
    | nil => cases f2 <;> rfl
    | cons c cs =>
      cases f2 with
      | zero => simp at h2
      | succ j =>
        simp only [finditerAux]
        rcases hm : matchAt (c :: cs) with _ | ⟨m, rest⟩
        · simp only [List.length_cons] at h1 h2
          exact ih j cs (by omega) (by omega)
        · have hlt := matchAt_rest_lt (c :: cs) m rest hm
          simp only [List.length_cons] at h1 h2 hlt
          exact congrArg (List.cons m) (ih j rest (by omega) (by omega))

/-- Any fuel of at least the input length yields the same match list, so
the fuel choice in finditer is canonical and the embedding does not
truncate the scan. -/
theorem finditerAux_eq_finditer (fuel : Nat) (cs : List Char)
    (h : cs.length ≤ fuel) : finditerAux fuel cs = finditer cs :=
  finditerAux_fuel fuel cs.length cs h (Nat.le_refl _)

theorem check_comment_exists_fst (fx : Oracle) (st : RunState) (i t : String) :
    (check_comment_exists fx st i t).1
      = (fx.readOk st.readCount && commentExistsIn st.remote i t) := by
  simp only [check_comment_exists, get_issue_comments, commentExistsIn]
  by_cases h : fx.readOk st.readCount = true
  · simp [h]
  · have h2 : fx.readOk st.readCount = false := by
      cases hb : fx.readOk st.readCount
      · rfl
      · exact absurd hb h
    simp [h2]

theorem check_comment_exists_snd (fx : Oracle) (st : RunState) (i t : String) :
    (check_comment_exists fx st i t).2
      = { st with readCount := st.readCount + 1 } := by
  simp only [check_comment_exists, get_issue_comments]
  by_cases h : fx.readOk st.readCount = true
  · simp [h]
  · have h2 : fx.readOk st.readCount = false := by
      cases hb : fx.readOk st.readCount
      · rfl
      · exact absurd hb h
    simp [h2]

theorem bool_eq_false_of_ne_true (bo : Bool) (h : ¬bo = true) : bo = false := by
  cases bo
  · rfl
  · exact absurd rfl h


theorem processRef_miss (env : Env) (fx : Oracle) (a b c : String) (pr : PR)
    (st : RunState) (ref : IssueRef)
    (h : env.issue_id_by_number ref.org ref.repo ref.number = none) :
    processRef env fx a b c pr st ref
      = StepResult.ok
          { st with calls := st.calls ++ [Call.lookupIssue ref.org ref.repo ref.number] } := by
  simp [processRef, h]

theorem processRef_skip (env : Env) (fx : Oracle) (a b c : String) (pr : PR)
    (st : RunState) (ref : IssueRef) (i : String)
    (h : env.issue_id_by_number ref.org ref.repo ref.number = some i)
    (hck : (fx.readOk st.readCount
        && commentExistsIn st.remote i (comment_text_for pr.number pr.url)) = true) :
    processRef env fx a b c pr st ref
      = StepResult.ok
          { st with
              readCount := st.readCount + 1
              calls := st.calls ++ [Call.lookupIssue ref.org ref.repo ref.number] } := by
  simp [processRef, h, check_comment_exists_fst, check_comment_exists_snd, hck]

theorem processRef_crash (env : Env) (fx : Oracle) (a b c : String) (pr : PR)
    (st : RunState) (ref : IssueRef) (i : String)
    (h : env.issue_id_by_number ref.org ref.repo ref.number = some i)
    (hck : (fx.readOk st.readCount
        && commentExistsIn st.remote i (comment_text_for pr.number pr.url)) = false)
    (hst : get_issue_status st.remote i ≠ some "QA Testing") :
    processRef env fx a b c pr st ref
      = StepResult.crashed
          { st with
              readCount := st.readCount + 1
              calls := st.calls ++ [Call.lookupIssue ref.org ref.repo ref.number] } := by
  simp [processRef, h, check_comment_exists_fst, check_comment_exists_snd, hck, hst]

theorem processRef_post_ok (env : Env) (fx : Oracle) (a b c : String) (pr : PR)
    (st : RunState) (ref : IssueRef) (i : String)
    (h : env.issue_id_by_number ref.org ref.repo ref.number = some i)
    (hck : (fx.readOk st.readCount
        && commentExistsIn st.remote i (comment_text_for pr.number pr.url)) = false)
    (hst : get_issue_status st.remote i = some "QA Testing")
    (hcom : fx.comOk st.comCount = true) :
    processRef env fx a b c pr st ref
      = StepResult.ok
          ⟨appendComment st.remote i (comment_text_for pr.number pr.url),
            st.mutCount, st.comCount + 1, st.readCount + 1,
            st.calls ++ [Call.lookupIssue ref.org ref.repo ref.number,
              Call.addComment i (comment_text_for pr.number pr.url) true]⟩ := by
  simp [processRef, h, check_comment_exists_fst, check_comment_exists_snd, hck, hst,
    add_issue_comment, hcom]

theorem processRef_post_fail (env : Env) (fx : Oracle) (a b c : String) (pr : PR)
    (st : RunState) (ref : IssueRef) (i : String)
    (h : env.issue_id_by_number ref.org ref.repo ref.number = some i)
    (hck : (fx.readOk st.readCount
        && commentExistsIn st.remote i (comment_text_for pr.number pr.url)) = false)
    (hst : get_issue_status st.remote i = some "QA Testing")
    (hcom : fx.comOk st.comCount = false) :
    processRef env fx a b c pr st ref
      = StepResult.ok
          { st with
              comCount := st.comCount + 1
              readCount := st.readCount + 1
              calls := st.calls ++ [Call.lookupIssue ref.org ref.repo ref.number,
                Call.addComment i (comment_text_for pr.number pr.url) false] } := by
  simp [processRef, h, check_comment_exists_fst, check_comment_exists_snd, hck, hst,
    add_issue_comment, hcom]


theorem countMut_append (c1 c2 : List Call) :
    countMut (c1 ++ c2) = countMut c1 + countMut c2 := by
  simp [countMut, List.filter_append]

theorem countCom_append (c1 c2 : List Call) :
    countCom (c1 ++ c2) = countCom c1 + countCom c2 := by
  simp [countCom, List.filter_append]

theorem notify_change_status_early (env : Env) (fx : Oracle) (r : Remote)
    (h : env.merged_prs.isEmpty = true ∨ env.project_id = none ∨
      env.status_field_id = none ∨ env.status_option_id = none) :
    (notify_change_status env fx r).2 = ⟨r, 0, 0, 0, []⟩ := by
  by_cases h1 : env.merged_prs.isEmpty
  · simp [notify_change_status, h1]
  · rcases h with h | h | h | h
    · exact absurd h h1
    · simp [notify_change_status, h1, h]
    · rcases ha : env.project_id with _ | a
      · simp [notify_change_status, h1, ha]
      · simp [notify_change_status, h1, ha, h]
    · rcases ha : env.project_id with _ | a
      · simp [notify_change_status, h1, ha]
      · rcases hb : env.status_field_id with _ | bb
        · simp [notify_change_status, h1, ha, hb]
        · simp [notify_change_status, h1, ha, hb, h]

theorem processRef_countMut (env : Env) (fx : Oracle) (a b c : String) (pr : PR)
    (st : RunState) (ref : IssueRef) :
    countMut (processRef env fx a b c pr st ref).state.calls = countMut st.calls := by
  rcases hl : env.issue_id_by_number ref.org ref.repo ref.number with _ | j
  · rw [processRef_miss env fx a b c pr st ref hl]
    simp [StepResult.state, countMut_append, countMut, List.filter_cons, isMutCall]
  · by_cases hck : (fx.readOk st.readCount
        && commentExistsIn st.remote j (comment_text_for pr.number pr.url)) = true
    · rw [processRef_skip env fx a b c pr st ref j hl hck]
      simp [StepResult.state, countMut_append, countMut, List.filter_cons, isMutCall]
    · have hck2 := bool_eq_false_of_ne_true _ hck
      by_cases hst : get_issue_status st.remote j = some "QA Testing"
      · by_cases hcom : fx.comOk st.comCount = true
        · rw [processRef_post_ok env fx a b c pr st ref j hl hck2 hst hcom]
          simp [StepResult.state, countMut_append, countMut, List.filter_cons, isMutCall]
        · have hcom2 := bool_eq_false_of_ne_true _ hcom
          rw [processRef_post_fail env fx a b c pr st ref j hl hck2 hst hcom2]
          simp [StepResult.state, countMut_append, countMut, List.filter_cons, isMutCall]
      · rw [processRef_crash env fx a b c pr st ref j hl hck2 hst]
        simp [StepResult.state, countMut_append, countMut, List.filter_cons, isMutCall]

theorem runSteps_single {α : Type} (f : RunState → α → StepResult) (st : RunState)
    (x : α) : (runSteps f st [x]).state = (f st x).state := by
  simp only [runSteps]
  rcases f st x with st2 | st2 <;> rfl

theorem processRef_calls_ext (env : Env) (fx : Oracle) (a b c : String) (pr : PR)
    (st : RunState) (ref : IssueRef) :
    ∃ t, (processRef env fx a b c pr st ref).state.calls
      = st.calls ++ Call.lookupIssue ref.org ref.repo ref.number :: t := by
  rcases hl : env.issue_id_by_number ref.org ref.repo ref.number with _ | j
  · exact ⟨[], by rw [processRef_miss env fx a b c pr st ref hl]; rfl⟩
  · by_cases hck : (fx.readOk st.readCount
        && commentExistsIn st.remote j (comment_text_for pr.number pr.url)) = true
    · exact ⟨[], by rw [processRef_skip env fx a b c pr st ref j hl hck]; rfl⟩
    · have hck2 := bool_eq_false_of_ne_true _ hck
      by_cases hst : get_issue_status st.remote j = some "QA Testing"
      · by_cases hcom : fx.comOk st.comCount = true
        · exact ⟨[Call.addComment j (comment_text_for pr.number pr.url) true],
            by rw [processRef_post_ok env fx a b c pr st ref j hl hck2 hst hcom]; rfl⟩
        · have hcom2 := bool_eq_false_of_ne_true _ hcom
          exact ⟨[Call.addComment j (comment_text_for pr.number pr.url) false],
            by rw [processRef_post_fail env fx a b c pr st ref j hl hck2 hst hcom2]; rfl⟩
      · exact ⟨[], by rw [processRef_crash env fx a b c pr st ref j hl hck2 hst]; rfl⟩

theorem notify_not_crashed_config (env : Env) (fx : Oracle) (r : Remote)
    (h : env.project_id = none ∨ env.status_field_id = none ∨
      env.status_option_id = none) :
    (notify_change_status env fx r).1 ≠ RunOutcome.crashedTypeError := by
  by_cases h1 : env.merged_prs.isEmpty
  · simp [notify_change_status, h1]
  · rcases h with h | h | h
    · simp [notify_change_status, h1, h]
    · rcases ha : env.project_id with _ | a
      · simp [notify_change_status, h1, ha]
      · simp [notify_change_status, h1, ha, h]
    · rcases ha : env.project_id with _ | a
      · simp [notify_change_status, h1, ha]
      · rcases hb : env.status_field_id with _ | bb
        · simp [notify_change_status, h1, ha, hb]
        · simp [notify_change_status, h1, ha, hb, h]

theorem exit_zero_of_not_crashed (env : Env) (fx : Oracle) (r : Remote)
    (h : (main_run env fx r).1 ≠ RunOutcome.crashedTypeError) :
    process_exit_code env fx r = 0 := by
  unfold process_exit_code
  rcases ho : (main_run env fx r).1
  · rfl
  · rfl
  · rfl
  · rfl
  · rfl
  · exact absurd ho h


/-- Claim C2 evaluated at its failing input: a NeedsTransition pair
(reference resolves, no marker, status Todo) never reaches the remote
mutation.  The call at main.py:126-134 passes the issue_id keyword to
the six-parameter update_issue_status_to_qa_testing (graphql.py:299-301)
and raises TypeError at binding, before any request is issued: the run
records only the identifier lookup, posts nothing, and the process exits
with status 1. -/
theorem c2_typeerror_instead_of_mutation :
    (main_run envMain allOk remTodo).1 = RunOutcome.crashedTypeError
    ∧ (main_run envMain allOk remTodo).2.calls = [Call.lookupIssue "org" "myrepo" 5]
    ∧ countMut (main_run envMain allOk remTodo).2.calls = 0
    ∧ countCom (main_run envMain allOk remTodo).2.calls = 0
    ∧ process_exit_code envMain allOk remTodo = 1 := by
  refine ⟨?_, ?_, ?_, ?_, ?_⟩ <;> decide

/-- Claim C3: when the issue already carries the marker comment of the
PR (and the comment-history read goes through), the step returns with
only the identifier lookup recorded, leaving the remote, and in
particular the status, untouched; the same issue processed against a
different PR whose marker is absent is not skipped: it posts a comment
when the status already matches the target, and otherwise enters the
transition branch where the run aborts on the arity bug. -/
theorem c3_already_notified_skip (env : Env) (fx : Oracle) (a b c : String)
    (pr prOther : PR) (st : RunState) (ref : IssueRef) (i : String)
    (hlook : env.issue_id_by_number ref.org ref.repo ref.number = some i)
    (hread : fx.readOk st.readCount = true)
    (hck : commentExistsIn st.remote i (comment_text_for pr.number pr.url) = true)
    (hckO : commentExistsIn st.remote i
      (comment_text_for prOther.number prOther.url) = false) :
    processRef env fx a b c pr st ref
      = StepResult.ok
          { st with
              readCount := st.readCount + 1
              calls := st.calls ++ [Call.lookupIssue ref.org ref.repo ref.number] }
    ∧ ((∃ st2, processRef env fx a b c prOther st ref = StepResult.ok st2
          ∧ countCom st2.calls = countCom st.calls + 1)
        ∨ (∃ st2, processRef env fx a b c prOther st ref = StepResult.crashed st2)) := by
  constructor
  · exact processRef_skip env fx a b c pr st ref i hlook (by simp [hread, hck])
  · have hckc : (fx.readOk st.readCount && commentExistsIn st.remote i
        (comment_text_for prOther.number prOther.url)) = false := by
      rw [hckO, Bool.and_false]
    by_cases hst : get_issue_status st.remote i = some "QA Testing"
    · left
      by_cases hcom : fx.comOk st.comCount = true
      · exact ⟨_, processRef_post_ok env fx a b c prOther st ref i hlook hckc hst hcom,
          by simp [countCom_append, countCom, List.filter_cons, isComCall]⟩
      · have hcom2 := bool_eq_false_of_ne_true _ hcom
        exact ⟨_, processRef_post_fail env fx a b c prOther st ref i hlook hckc hst hcom2,
          by simp [countCom_append, countCom, List.filter_cons, isComCall]⟩
    · right
      exact ⟨_, processRef_crash env fx a b c prOther st ref i hlook hckc hst⟩

/-- Witness for C3: issue I1 carries the marker of PR number 99;
processing the pair against PR 99 records only the lookup, while
processing it against PR 100 is not skipped (at this input the
transition branch is entered and the step crashes). -/
theorem c3_witness :
    processRef envMain allOk "P1" "F1" "O1" pr99x ⟨remMarked, 0, 0, 0, []⟩
        ⟨"org", "myrepo", 5⟩
      = StepResult.ok
          { (⟨remMarked, 0, 0, 0, []⟩ : RunState) with
              readCount := (0 : Nat) + 1
              calls := ([] : List Call) ++ [Call.lookupIssue "org" "myrepo" 5] }
    ∧ ((∃ st2, processRef envMain allOk "P1" "F1" "O1" pr100x ⟨remMarked, 0, 0, 0, []⟩
          ⟨"org", "myrepo", 5⟩ = StepResult.ok st2
          ∧ countCom st2.calls = countCom ([] : List Call) + 1)
        ∨ (∃ st2, processRef envMain allOk "P1" "F1" "O1" pr100x
            ⟨remMarked, 0, 0, 0, []⟩ ⟨"org", "myrepo", 5⟩
            = StepResult.crashed st2)) :=
  c3_already_notified_skip envMain allOk "P1" "F1" "O1" pr99x pr100x
    ⟨remMarked, 0, 0, 0, []⟩ ⟨"org", "myrepo", 5⟩ "I1"
    (by decide) rfl (by decide) (by decide)

/-- Claim C4 evaluated at its failing input: with the dry-run flag
enabled, a pair whose issue already has the target status still issues
the real addComment call (main.py:146-151 only logs the flag;
notify_change_status has no dry-run check), and a pair needing a status
change aborts the run instead of logging a previewed transition. -/
theorem c4_dry_run_still_writes :
    cfgDry.dry_run = true
    ∧ (main_run envDry allOk remQA).1 = RunOutcome.completed
    ∧ (main_run envDry allOk remQA).2.calls
        = [Call.lookupIssue "org" "myrepo" 5,
           Call.addComment "I1" (comment_text_for 12 "u12") true]
    ∧ countCom (main_run envDry allOk remQA).2.calls = 1
    ∧ (main_run envDry allOk remTodo).1 = RunOutcome.crashedTypeError := by
  refine ⟨rfl, ?_, ?_, ?_, ?_⟩ <;> decide

/-- Counterexample to C5: an issue linked to no project board (empty
projectItems, get_project_item_id_for_issue none) is not skipped with a
warning: the engine reads its status as None, enters the transition
branch, and the whole run aborts on the TypeError; no mutation call is
issued, but neither does processing continue. -/
theorem c5_counterexample :
    remUnlinked.projectItems "I1" = []
    ∧ get_project_item_id_for_issue remUnlinked "P1" "I1" = none
    ∧ (main_run envMain allOk remUnlinked).1 = RunOutcome.crashedTypeError
    ∧ (main_run envMain allOk remUnlinked).2.calls
        = [Call.lookupIssue "org" "myrepo" 5]
    ∧ countMut (main_run envMain allOk remUnlinked).2.calls = 0 := by
  refine ⟨rfl, rfl, ?_, ?_, ?_⟩ <;> decide

/-- Claim C5 as amended: the engine never consults the board-linking
identifier; an issue with no project items reads a None status, which
differs from the target, so instead of being skipped the pair enters the
transition branch and the step crashes on the TypeError of main.py:126,
aborting the run; no status-mutation call is issued there (none can ever
be issued, since the call site never binds its arguments). -/
theorem c5_amended_unlinked_crashes (env : Env) (fx : Oracle) (a b c : String)
    (pr : PR) (st : RunState) (ref : IssueRef) (i : String)
    (hlook : env.issue_id_by_number ref.org ref.repo ref.number = some i)
    (hck : (fx.readOk st.readCount && commentExistsIn st.remote i
      (comment_text_for pr.number pr.url)) = false)
    (hunlinked : st.remote.projectItems i = []) :
    get_project_item_id_for_issue st.remote a i = none
    ∧ processRef env fx a b c pr st ref
        = StepResult.crashed
            { st with
                readCount := st.readCount + 1
                calls := st.calls ++ [Call.lookupIssue ref.org ref.repo ref.number] }
    ∧ countMut (processRef env fx a b c pr st ref).state.calls = countMut st.calls := by
  have hst : get_issue_status st.remote i ≠ some "QA Testing" := by
    simp [get_issue_status, hunlinked]
  refine ⟨?_, ?_, ?_⟩
  · simp [get_project_item_id_for_issue, hunlinked]
  · exact processRef_crash env fx a b c pr st ref i hlook hck hst
  · exact processRef_countMut env fx a b c pr st ref

/-- Witness for the amended C5 at a concrete unlinked issue. -/
theorem c5_witness :
    get_project_item_id_for_issue remUnlinked "P1" "I1" = none
    ∧ processRef envMain allOk "P1" "F1" "O1" pr12x ⟨remUnlinked, 0, 0, 0, []⟩
        ⟨"org", "myrepo", 5⟩
      = StepResult.crashed
          { (⟨remUnlinked, 0, 0, 0, []⟩ : RunState) with
              readCount := (0 : Nat) + 1
              calls := ([] : List Call) ++ [Call.lookupIssue "org" "myrepo" 5] }
    ∧ countMut (processRef envMain allOk "P1" "F1" "O1" pr12x
        ⟨remUnlinked, 0, 0, 0, []⟩ ⟨"org", "myrepo", 5⟩).state.calls
      = countMut ([] : List Call) :=
  c5_amended_unlinked_crashes envMain allOk "P1" "F1" "O1" pr12x
    ⟨remUnlinked, 0, 0, 0, []⟩ ⟨"org", "myrepo", 5⟩ "I1"
    (by decide) (by decide) rfl


/-- Counterexample to C6: a body repeating one reference in the three
forms yields three resolved references, not one, and the engine issues
three identifier lookups for them. -/
theorem c6_counterexample :
    (parse_issue_references cfgEx (some "#12 and myrepo#12 and org/myrepo#12")).length
      = 3
    ∧ (parse_issue_references cfgEx
        (some "#12 and myrepo#12 and org/myrepo#12")).length ≠ 1
    ∧ countLookups (main_run env6 allOk rem6).2.calls = 3 := by
  refine ⟨?_, ?_, ?_⟩ <;> decide

/-- Claim C6 as amended: no deduplication is performed; the three forms
each produce the same resolved (owner, repo, number) triple, each
triggering its own identifier lookup, and only the comment-existence
check keeps the run down to a single comment post (here the issue is
already in the target status, so the run completes). -/
theorem c6_amended_no_dedup :
    parse_issue_references cfgEx (some "#12 and myrepo#12 and org/myrepo#12")
      = [⟨"org", "myrepo", 12⟩, ⟨"org", "myrepo", 12⟩, ⟨"org", "myrepo", 12⟩]
    ∧ countLookups (main_run env6 allOk rem6).2.calls = 3
    ∧ countCom (main_run env6 allOk rem6).2.calls = 1
    ∧ (main_run env6 allOk rem6).1 = RunOutcome.completed := by
  refine ⟨?_, ?_, ?_, ?_⟩ <;> decide

/-- Claim C7: the three reference forms resolve as specified, for every
configured owner and repository. -/
theorem c7_reference_forms (cfg : Config) :
    parse_issue_references cfg (some "org/other#45") = [⟨"org", "other", 45⟩]
    ∧ parse_issue_references cfg (some "repo#123")
        = [⟨cfg.repository_owner, "repo", 123⟩]
    ∧ parse_issue_references cfg (some "#7")
        = [⟨cfg.repository_owner, cfg.repository_name, 7⟩] :=
  ⟨rfl, rfl, rfl⟩

/-- Counterexample to C8: against a server that always reports another
page with an unchanged cursor, both pagination loops are still running
after five requests, with no abort and no protocol error. -/
theorem c8_counterexample :
    get_recent_merged_prs_in_dev constPRServer 5 none [] 0
      = PageLoop.running [] (some "c0") 5
    ∧ get_repo_issues constIssueServer 5 none [] 0
      = PageLoop.running [] (some "c0") 5 := by
  refine ⟨?_, ?_⟩ <;> decide

/-- Claim C8 as amended: the loops have no cursor-repeat guard; as long
as the server reports hasNextPage with an unchanged cursor they keep
issuing one request per iteration forever, never reaching a done state
and never surfacing a protocol error. -/
theorem c8_amended_no_cursor_guard :
    (∀ (n : Nat) (cursor : Option String) (acc : List PR) (reqs : Nat),
      get_recent_merged_prs_in_dev constPRServer (n + 1) cursor acc reqs
        = PageLoop.running acc (some "c0") (reqs + (n + 1)))
    ∧ (∀ (n : Nat) (after : Option String) (issues : List String) (reqs : Nat),
      get_repo_issues constIssueServer (n + 1) after issues reqs
        = PageLoop.running issues (some "c0") (reqs + (n + 1))) := by
  constructor
  · intro n
    induction n with
    | zero =>
      intro cursor acc reqs
      simp [get_recent_merged_prs_in_dev, constPRServer]
    | succ k ih =>
      intro cursor acc reqs
      have h1 : get_recent_merged_prs_in_dev constPRServer (k + 1 + 1) cursor acc reqs
          = get_recent_merged_prs_in_dev constPRServer (k + 1) (some "c0") (acc ++ [])
            (reqs + 1) := by
        simp [get_recent_merged_prs_in_dev, constPRServer]
      rw [h1, List.append_nil, ih (some "c0") acc (reqs + 1)]
      have h2 : reqs + 1 + (k + 1) = reqs + (k + 1 + 1) := by omega
      rw [h2]
  · intro n
    induction n with
    | zero =>
      intro after issues reqs
      simp [get_repo_issues, constIssueServer]
    | succ k ih =>
      intro after issues reqs
      have h1 : get_repo_issues constIssueServer (k + 1 + 1) after issues reqs
          = get_repo_issues constIssueServer (k + 1) (some "c0") (issues ++ [])
            (reqs + 1) := by
        simp [get_repo_issues, constIssueServer]
      rw [h1, List.append_nil, ih (some "c0") issues (reqs + 1)]
      have h2 : reqs + 1 + (k + 1) = reqs + (k + 1 + 1) := by omega
      rw [h2]

/-- Counterexample to C9: with the project lookup failing and one merged
PR pending, the run aborts before processing any PR, but the process
exit status is zero, not non-zero. -/
theorem c9_counterexample :
    envNoProject.merged_prs ≠ []
    ∧ (main_run envNoProject allOk remTodo).1 = RunOutcome.projectNotFound
    ∧ (main_run envNoProject allOk remTodo).2.calls = []
    ∧ process_exit_code envNoProject allOk remTodo = 0 := by
  refine ⟨?_, ?_, ?_, ?_⟩ <;> decide

/-- Claim C9 as amended: a missing project, status field or status
option aborts the run before any PR is processed (no remote call is
issued) but the process exits with status zero; a reference that fails
to resolve only records its lookup and the run continues; the one
per-issue condition the run does not survive is a pair needing a status
change, which aborts the whole run through the uncaught TypeError and
makes the process exit non-zero. -/
theorem c9_amended_config_abort_exit_zero (env : Env) (fx : Oracle) (r : Remote) :
    (env.project_id = none →
      (main_run env fx r).2.calls = [] ∧ process_exit_code env fx r = 0)
    ∧ (env.status_field_id = none →
      (main_run env fx r).2.calls = [] ∧ process_exit_code env fx r = 0)
    ∧ (env.status_option_id = none →
      (main_run env fx r).2.calls = [] ∧ process_exit_code env fx r = 0)
    ∧ (∀ (a b c : String) (pr : PR) (st : RunState) (ref : IssueRef),
        env.issue_id_by_number ref.org ref.repo ref.number = none →
        processRef env fx a b c pr st ref
          = StepResult.ok
              { st with calls := st.calls
                  ++ [Call.lookupIssue ref.org ref.repo ref.number] })
    ∧ ((main_run env fx r).1 = RunOutcome.crashedTypeError →
        process_exit_code env fx r = 1) := by
  refine ⟨?_, ?_, ?_, ?_, ?_⟩
  · intro h
    constructor
    · show (notify_change_status env fx r).2.calls = []
      rw [notify_change_status_early env fx r (Or.inr (Or.inl h))]
    · exact exit_zero_of_not_crashed env fx r
        (notify_not_crashed_config env fx r (Or.inl h))
  · intro h
    constructor
    · show (notify_change_status env fx r).2.calls = []
      rw [notify_change_status_early env fx r (Or.inr (Or.inr (Or.inl h)))]
    · exact exit_zero_of_not_crashed env fx r
        (notify_not_crashed_config env fx r (Or.inr (Or.inl h)))
  · intro h
    constructor
    · show (notify_change_status env fx r).2.calls = []
      rw [notify_change_status_early env fx r (Or.inr (Or.inr (Or.inr h)))]
    · exact exit_zero_of_not_crashed env fx r
        (notify_not_crashed_config env fx r (Or.inr (Or.inr h)))
  · intro a b c pr st ref h
    exact processRef_miss env fx a b c pr st ref h
  · intro h
    simp [process_exit_code, h]

/-- Witness for the amended C9: the configuration-failure clauses at an
environment where all three lookups fail and no reference resolves, and
the non-zero exit clause at a crashing NeedsTransition run. -/
theorem c9_witness :
    ((main_run envAllNone allOk remTodo).2.calls = []
      ∧ process_exit_code envAllNone allOk remTodo = 0)
    ∧ processRef envAllNone allOk "P1" "F1" "O1" pr12x ⟨remTodo, 0, 0, 0, []⟩
        ⟨"org", "myrepo", 5⟩
      = StepResult.ok
          { (⟨remTodo, 0, 0, 0, []⟩ : RunState) with
              calls := ([] : List Call) ++ [Call.lookupIssue "org" "myrepo" 5] }
    ∧ process_exit_code envMain allOk remTodo = 1 :=
  ⟨(c9_amended_config_abort_exit_zero envAllNone allOk remTodo).1 rfl,
   (c9_amended_config_abort_exit_zero envAllNone allOk remTodo).2.2.2.1
     "P1" "F1" "O1" pr12x ⟨remTodo, 0, 0, 0, []⟩ ⟨"org", "myrepo", 5⟩ rfl,
   (c9_amended_config_abort_exit_zero envMain allOk remTodo).2.2.2.2 (by decide)⟩

/-- Claim C10: a maximal word-or-hyphen run immediately before a hash
reference is taken as a repository name with the configured owner
substituted, so prose such as bug#12 becomes a cross-repo reference to
repository bug and the engine performs its identifier lookup there; a
hash reference with no adjacent word character defaults to the
configured repository, and a None or empty text parses to the empty
list. -/
theorem c10_adjacent_word_becomes_repo (cfg : Config) (env : Env) (fx : Oracle)
    (a b c : String) (st : RunState) (pr : PR)
    (hbody : pr.bodyText = some "bug#12") :
    parse_issue_references cfg (some "bug#12") = [⟨cfg.repository_owner, "bug", 12⟩]
    ∧ parse_issue_references cfg (some "see bug#12 now")
        = [⟨cfg.repository_owner, "bug", 12⟩]
    ∧ parse_issue_references cfg (some "a-b_c9#7")
        = [⟨cfg.repository_owner, "a-b_c9", 7⟩]
    ∧ parse_issue_references cfg (some "fix #12")
        = [⟨cfg.repository_owner, cfg.repository_name, 12⟩]
    ∧ parse_issue_references cfg none = []
    ∧ parse_issue_references cfg (some "") = []
    ∧ Call.lookupIssue env.cfg.repository_owner "bug" 12
        ∈ (processPR env fx a b c st pr).state.calls := by
  refine ⟨rfl, rfl, rfl, rfl, rfl, rfl, ?_⟩
  have hparse : parse_issue_references env.cfg (some (pr.bodyText.getD ""))
      = [⟨env.cfg.repository_owner, "bug", 12⟩] := by
    rw [hbody]
    rfl
  have hfold : (processPR env fx a b c st pr).state
      = (processRef env fx a b c pr st ⟨env.cfg.repository_owner, "bug", 12⟩).state := by
    show (runSteps (processRef env fx a b c pr) st
        (parse_issue_references env.cfg (some (pr.bodyText.getD "")))).state
      = (processRef env fx a b c pr st ⟨env.cfg.repository_owner, "bug", 12⟩).state
    rw [hparse]
    exact runSteps_single (processRef env fx a b c pr) st
      ⟨env.cfg.repository_owner, "bug", 12⟩
  rw [hfold]
  obtain ⟨t, ht⟩ := processRef_calls_ext env fx a b c pr st
    ⟨env.cfg.repository_owner, "bug", 12⟩
  rw [ht]
  exact List.mem_append_right _ (List.mem_cons_self _ _)

/-- Witness for C10 at a concrete PR whose body is bug#12. -/
theorem c10_witness :
    parse_issue_references cfgEx (some "bug#12") = [⟨"org", "bug", 12⟩]
    ∧ Call.lookupIssue "org" "bug" 12
        ∈ (processPR envMain allOk "P1" "F1" "O1" ⟨remTodo, 0, 0, 0, []⟩
            prBug).state.calls :=
  ⟨(c10_adjacent_word_becomes_repo cfgEx envMain allOk "P1" "F1" "O1"
      ⟨remTodo, 0, 0, 0, []⟩ prBug rfl).1,
   (c10_adjacent_word_becomes_repo cfgEx envMain allOk "P1" "F1" "O1"
      ⟨remTodo, 0, 0, 0, []⟩ prBug rfl).2.2.2.2.2.2⟩

end QA
